import Mathlib

/-!
Verification development for the papyrus backend (FastAPI + RAGFlow client).

The definitions below are a shallow embedding of the repository source:
  * src/backend/app/ragflow_client.py  (citation normalizer, query payload)
  * src/backend/main.py                (document lifecycle, upload validation,
                                        conversation context assembly)

Python dictionaries coming back from the external RAG service are dynamically
typed, so raw response values are modelled by the inductive type Val below.
Python strings are modelled as lists of characters.  Machine floats carry no
arithmetic in the modelled code (scores are only stored or defaulted), so they
are modelled as rationals.
-/

namespace Papyrus

/-- Dynamic value, modelling a Python JSON-like object: None, int, float,
str, list, dict.  Floats are modelled as rationals (the code never computes
with them). -/
inductive Val where
  | vNone : Val
  | vInt (n : Int) : Val
  | vRat (q : Rat) : Val
  | vStr (s : List Char) : Val
  | vList (xs : List Val) : Val
  | vDict (kvs : List (String × Val)) : Val

/-- Lookup of a key in a modelled Python dict (first match; Python dicts have
unique keys). -/
def lookupKV : List (String × Val) → String → Option Val
  | [], _ => none
  | (k, v) :: rest, key => if k = key then some v else lookupKV rest key

/-- Models the Python expression receiver.get(key, default).  Returns none
when the receiver is not a dict, which in Python raises AttributeError. -/
def dictGet : Val → String → Val → Option Val
  | Val.vDict kvs, key, dflt => some ((lookupKV kvs key).getD dflt)
  | _, _, _ => none

/-- Models Python iteration (for x in v).  Lists iterate their elements,
strings iterate their one-character strings, dicts iterate their keys;
None and numbers raise TypeError, modelled as none. -/
def pyIter : Val → Option (List Val)
  | Val.vList xs => some xs
  | Val.vStr s => some (s.map fun c => Val.vStr [c])
  | Val.vDict kvs => some (kvs.map fun kv => Val.vStr kv.1.data)
  | _ => none

/-- Models Python truthiness of a value. -/
def pyTruthy : Val → Bool
  | Val.vNone => false
  | Val.vInt n => n != 0
  | Val.vRat q => q != 0
  | Val.vStr s => !s.isEmpty
  | Val.vList xs => !xs.isEmpty
  | Val.vDict kvs => !kvs.isEmpty

/-- True exactly when the value is a Python mapping (dict). -/
def isMapping : Val → Bool
  | Val.vDict _ => true
  | _ => false

/-- Digits-with-optional-sign integer parsing, modelling the part of the
pydantic v2 lax str-to-int coercion exercised by plain decimal strings
(surrounding whitespace and underscore separators are not modelled). -/
def parseIntChars : List Char → Option Int
  | [] => none
  | '-' :: rest =>
    if rest ≠ [] ∧ rest.all Char.isDigit then
      some (-(rest.foldl (fun acc c => acc * 10 + (c.toNat - '0'.toNat)) 0 : Nat))
    else none
  | '+' :: rest =>
    if rest ≠ [] ∧ rest.all Char.isDigit then
      some ((rest.foldl (fun acc c => acc * 10 + (c.toNat - '0'.toNat)) 0 : Nat))
    else none
  | cs =>
    if cs.all Char.isDigit then
      some ((cs.foldl (fun acc c => acc * 10 + (c.toNat - '0'.toNat)) 0 : Nat))
    else none

/-- Pydantic v2 lax coercion into a str field: only actual strings are
accepted (v2 does not stringify numbers). -/
def coerceStr : Val → Option (List Char)
  | Val.vStr s => some s
  | _ => none

/-- Pydantic v2 lax coercion into an int field: ints pass, floats pass when
they have no fractional part, decimal strings parse; anything else is a
validation error (none). -/
def coerceInt : Val → Option Int
  | Val.vInt n => some n
  | Val.vRat q => if q.den = 1 then some q.num else none
  | Val.vStr s => parseIntChars s
  | _ => none

/-- Pydantic v2 lax coercion into an Optional[int] field: None is accepted
as the absent value. -/
def coerceOptInt : Val → Option (Option Int)
  | Val.vNone => some none
  | v => (coerceInt v).map some

/-- Pydantic v2 lax coercion into a float field: floats and ints pass
(numeric-string coercion, unused by the modelled call sites, is not
modelled). -/
def coerceFloat : Val → Option Rat
  | Val.vRat q => some q
  | Val.vInt n => some (n : Rat)
  | _ => none

/-- Citation model of ragflow_client.py (pydantic BaseModel Citation). -/
structure Citation where
  document_id : List Char
  page_number : Int
  text_excerpt : List Char
  start_position : Option Int := none
  end_position : Option Int := none
  confidence : Rat := 0
deriving DecidableEq

/-- The excerpt expression of extract_citations for the sources and chunks
shapes: text[:200] + three dots if len(text) > 200 else text.  The receiver
must support len, slicing and string concatenation, which among modelled
values only a string does end to end (a non-string eventually raises,
either at len/concatenation or at pydantic validation of the str field). -/
def pyTextExcerpt : Val → Option (List Char)
  | Val.vStr s => some (if 200 < s.length then s.take 200 ++ "...".data else s)
  | _ => none

/-- One entry of the sources shape (extract_citations lines 166-175).
none models an exception raised while processing the entry. -/
def mkSourceCitation (source : Val) : Option Citation := do
  let docIdV ← dictGet source "document_id" (Val.vStr [])
  let pageV ← dictGet source "page_number" (Val.vInt 1)
  let textV ← dictGet source "text" (Val.vStr [])
  let startV ← dictGet source "start_position" Val.vNone
  let endV ← dictGet source "end_position" Val.vNone
  let scoreV ← dictGet source "score" (Val.vRat 0)
  let document_id ← coerceStr docIdV
  let page_number ← coerceInt pageV
  let text_excerpt ← pyTextExcerpt textV
  let start_position ← coerceOptInt startV
  let end_position ← coerceOptInt endV
  let confidence ← coerceFloat scoreV
  some { document_id := document_id, page_number := page_number,
         text_excerpt := text_excerpt, start_position := start_position,
         end_position := end_position, confidence := confidence }

/-- One entry of the chunks shape (extract_citations lines 179-186). -/
def mkChunkCitation (chunk : Val) : Option Citation := do
  let docIdV ← dictGet chunk "doc_id" (Val.vStr [])
  let pageV ← dictGet chunk "page_num" (Val.vInt 1)
  let contentV ← dictGet chunk "content" (Val.vStr [])
  let scoreV ← dictGet chunk "similarity_score" (Val.vRat 0)
  let document_id ← coerceStr docIdV
  let page_number ← coerceInt pageV
  let text_excerpt ← pyTextExcerpt contentV
  let confidence ← coerceFloat scoreV
  some { document_id := document_id, page_number := page_number,
         text_excerpt := text_excerpt, confidence := confidence }

/-- One entry of the references shape (extract_citations lines 190-197).
Note: the source passes the excerpt through without the truncation
expression used for the other two shapes. -/
def mkRefCitation (ref : Val) : Option Citation := do
  let docIdV ← dictGet ref "document_id" (Val.vStr [])
  let pageV ← dictGet ref "page" (Val.vInt 1)
  let excerptV ← dictGet ref "excerpt" (Val.vStr [])
  let relV ← dictGet ref "relevance" (Val.vRat 0)
  let document_id ← coerceStr docIdV
  let page_number ← coerceInt pageV
  let text_excerpt ← coerceStr excerptV
  let confidence ← coerceFloat relV
  some { document_id := document_id, page_number := page_number,
         text_excerpt := text_excerpt, confidence := confidence }

/-- Option-valued map, modelling a Python for-loop that appends one result
per element and may raise (none) on any element. -/
def mapOpt (f : α → Option β) : List α → Option (List β)
  | [] => some []
  | a :: rest => do
    let b ← f a
    let bs ← mapOpt f rest
    some (b :: bs)

/-- Dedup key of a citation: the (document id, page number) pair. -/
def keyOf (c : Citation) : List Char × Int := (c.document_id, c.page_number)

/-- The dedup loop of extract_citations (lines 200-206): keep a citation only
when its key has not been seen before. -/
def dedupAux : List Citation → List (List Char × Int) → List Citation
  | [], _ => []
  | c :: rest, seen =>
    if keyOf c ∈ seen then dedupAux rest seen
    else c :: dedupAux rest (keyOf c :: seen)

def dedupCitations (cs : List Citation) : List Citation := dedupAux cs []

/-- The pre-deduplication citation list of extract_citations (lines 159-197):
try sources, else chunks, else references, consuming exactly one shape.
none models an exception caught by the surrounding try. -/
def rawCitations (resp : Val) : Option (List Citation) := do
  let sourcesV ← dictGet resp "sources" (Val.vList [])
  let chunksV ← dictGet resp "chunks" (Val.vList [])
  let referencesV ← dictGet resp "references" (Val.vList [])
  let sources ← pyIter sourcesV
  let cits1 ← mapOpt mkSourceCitation sources
  let cits2 ←
    if cits1.isEmpty && pyTruthy chunksV then do
      let chunks ← pyIter chunksV
      mapOpt mkChunkCitation chunks
    else some cits1
  let cits3 ←
    if cits2.isEmpty && pyTruthy referencesV then do
      let refs ← pyIter referencesV
      mapOpt mkRefCitation refs
    else some cits2
  some cits3

/-- extract_citations (ragflow_client.py lines 155-212): normalize, dedup,
cap at 5; any exception inside the try yields the empty list. -/
def extract_citations (resp : Val) : List Citation :=
  match rawCitations resp with
  | some cs => (dedupCitations cs).take 5
  | none => []

/-- A raw response carrying all three citation shapes as lists of entries. -/
def mkRawResponse (ss cs rs : List Val) : Val :=
  Val.vDict [("sources", Val.vList ss), ("chunks", Val.vList cs),
             ("references", Val.vList rs)]

/-! ## Conversation context builder
query_documents (ragflow_client.py lines 72-114) builds the outgoing payload;
only its pure payload-assembly part is modelled (the HTTP call is external).
send_message (main.py lines 807-886) assembles the history window passed to
it. -/

/-- A persisted conversation message as seen by the context builder. -/
structure Msg where
  role : String
  content : String
deriving DecidableEq

/-- Rendering of one context line (query_documents lines 89-91): role user
renders as Human, every other role as Assistant. -/
def renderMsg (m : Msg) : String :=
  (if m.role = "user" then "Human" else "Assistant") ++ ": " ++ m.content

/-- Python list slice xs[-n:]. -/
def takeLast (n : Nat) (xs : List α) : List α := xs.drop (xs.length - n)

/-- Models the Python newline join of a list of strings. -/
def joinWithNL : List String → String
  | [] => ""
  | [x] => x
  | x :: rest => x ++ "\n" ++ joinWithNL rest

/-- The context-relevant part of the outgoing query payload: the question
field and the optional conversation_context field. -/
structure QueryPayload where
  question : String
  conversation_context : Option String
deriving DecidableEq

/-- query_documents payload assembly (ragflow_client.py lines 75-98): with a
truthy context list, take the last 10 messages, render them, join with
newlines, attach the block and wrap the question in the fixed template;
otherwise send the question unmodified with no context field. -/
def query_documents (question : String) (conversation_context : Option (List Msg)) :
    QueryPayload :=
  match conversation_context with
  | none => { question := question, conversation_context := none }
  | some msgs =>
    if msgs.isEmpty then { question := question, conversation_context := none }
    else
      let recent := takeLast 10 msgs
      let parts := recent.map renderMsg
      if parts.isEmpty then { question := question, conversation_context := none }
      else
        let ctx := joinWithNL parts
        { question := "Given our previous conversation:\n" ++ ctx ++
            "\n\nNew question: " ++ question,
          conversation_context := some ctx }

/-- The context list send_message passes to query_documents (main.py lines
838-870): the last 10 persisted messages in chronological order, followed by
the just-saved user message holding the new question. -/
def send_message_context (history : List Msg) (question : String) : List Msg :=
  takeLast 10 history ++ [{ role := "user", content := question }]

/-- The payload produced by a send_message chat turn for a given persisted
history and sanitized question. -/
def send_message_payload (history : List Msg) (question : String) : QueryPayload :=
  query_documents question (some (send_message_context history question))

/-! ## Document lifecycle tracker
poll_document_status (main.py lines 516-561), the on-demand status endpoint
get_document_status (lines 616-651), the batch pass
poll_processing_documents (lines 653-687) and the upload transition
(lines 399-435). -/

/-- A persisted document record, restricted to the fields the lifecycle
logic reads or writes.  ragflow_document_id, page_count and doc_metadata
hold raw values copied from external responses (their columns accept
whatever the code assigns). -/
structure Doc where
  processing_status : String
  ragflow_document_id : Val
  page_count : Val
  doc_metadata : Val

/-- Result of one ragflow_client.get_document_status call as seen by its
callers: a success dict carrying the parsed JSON body, an error dict (the
client catches its own exceptions and returns status error), or an
exception raised elsewhere in the calling iteration (database access and
similar), which only the poll loop try/except turns into a break. -/
inductive RagResult where
  | success (data : Val) : RagResult
  | error : RagResult
  | exn : RagResult

/-- Comparison of a dynamic value with a Python string literal. -/
def isStrVal (v : Val) (s : String) : Bool :=
  match v with
  | Val.vStr t => t = s.data
  | _ => false

/-- Outcome of the shared status_data handling block (main.py 536-549,
631-638, 669-676): status completed carries the copied page count and
metadata, status failed carries nothing, any other status changes nothing,
and a non-dict body raises at status_data.get (exn). -/
inductive StatusOutcome where
  | completed (pc md : Val) : StatusOutcome
  | failedStatus : StatusOutcome
  | noChange : StatusOutcome
  | exn : StatusOutcome

def interpretStatusData (data : Val) : StatusOutcome :=
  match data with
  | Val.vDict kvs =>
    let st := (lookupKV kvs "status").getD Val.vNone
    if isStrVal st "completed" then
      StatusOutcome.completed ((lookupKV kvs "page_count").getD Val.vNone)
        ((lookupKV kvs "metadata").getD (Val.vDict []))
    else if isStrVal st "failed" then StatusOutcome.failedStatus
    else StatusOutcome.noChange
  | _ => StatusOutcome.exn

/-- Applies a terminal status outcome to a document record. -/
def applyOutcome (doc : Doc) : StatusOutcome → Doc
  | StatusOutcome.completed pc md =>
    { doc with processing_status := "completed", page_count := pc, doc_metadata := md }
  | StatusOutcome.failedStatus => { doc with processing_status := "failed" }
  | _ => doc

/-- poll_document_status (main.py lines 516-561), run against a store holding
the polled document (none models a concurrently deleted record) and a stream
of external results indexed by how many status calls were already made.
Returns the final stored document, the total number of status calls, and the
list of sleep durations performed.  Budget is the remaining attempt count
(60 at entry); each non-breaking iteration sleeps 10 seconds and consumes
one unit. -/
def poll_document_status (resp : Nat → RagResult) :
    Option Doc → Nat → Nat → Option Doc × Nat × List Nat
  | doc?, calls, 0 => (doc?, calls, [])
  | doc?, calls, budget + 1 =>
    match doc? with
    | none => (none, calls, [])
    | some doc =>
      if doc.processing_status ≠ "processing" then (some doc, calls, [])
      else
        if pyTruthy doc.ragflow_document_id then
          match resp calls with
          | RagResult.exn => (some doc, calls + 1, [])
          | RagResult.error =>
            let next := poll_document_status resp (some doc) (calls + 1) budget
            (next.1, next.2.1, 10 :: next.2.2)
          | RagResult.success data =>
            match interpretStatusData data with
            | StatusOutcome.exn => (some doc, calls + 1, [])
            | StatusOutcome.completed pc md =>
              (some (applyOutcome doc (StatusOutcome.completed pc md)), calls + 1, [])
            | StatusOutcome.failedStatus =>
              (some (applyOutcome doc StatusOutcome.failedStatus), calls + 1, [])
            | StatusOutcome.noChange =>
              let next := poll_document_status resp (some doc) (calls + 1) budget
              (next.1, next.2.1, 10 :: next.2.2)
        else
          let next := poll_document_status resp (some doc) calls budget
          (next.1, next.2.1, 10 :: next.2.2)

/-- The document update performed by the on-demand status endpoint
get_document_status (main.py lines 624-638): reconcile only when the record
is still processing and has a truthy external reference; an error result or
an exception leaves the record unchanged (no commit happens). -/
def get_document_status (doc : Doc) (ext : RagResult) : Doc :=
  if doc.processing_status = "processing" && pyTruthy doc.ragflow_document_id then
    match ext with
    | RagResult.success data =>
      match interpretStatusData data with
      | StatusOutcome.exn => doc
      | outcome => applyOutcome doc outcome
    | _ => doc
  else doc

/-- One document step of the batch pass poll_processing_documents (main.py
lines 662-676), applied to a record already selected by the
processing-status filter; none models an exception, which aborts the whole
pass before its single commit. -/
def pollAllStep (d : Doc) (r : RagResult) : Option Doc :=
  if d.processing_status = "processing" then
    if pyTruthy d.ragflow_document_id then
      match r with
      | RagResult.success data =>
        match interpretStatusData data with
        | StatusOutcome.exn => none
        | outcome => some (applyOutcome d outcome)
      | RagResult.error => some d
      | RagResult.exn => none
    else some d
  else some d

/-- poll_processing_documents (main.py lines 653-687) over a store of
documents: non-processing records are untouched by the filter; if any step
raises, the commit is never reached and the store is unchanged. -/
def poll_processing_documents (docs : List Doc) (respf : Doc → RagResult) : List Doc :=
  match mapOpt (fun d => pollAllStep d (respf d)) docs with
  | some ds => ds
  | none => docs

/-- Result of the external registration call ragflow_client.upload_document
as seen by the upload endpoint: a success dict with the parsed body, or an
error dict (the client catches its own exceptions). -/
inductive UploadResult where
  | success (data : Val) : UploadResult
  | error : UploadResult

/-- The post-registration transition of upload_document (main.py lines
399-435), applied to the freshly committed pending record.  Returns the
updated record and whether the background polling task was scheduled.
On success the external id is copied and the status becomes processing; a
success body that is not a dict raises at data.get before any assignment,
leaving the record pending with no task; on error the status becomes failed
with no task. -/
def uploadAfterSave (doc : Doc) (r : UploadResult) : Doc × Bool :=
  match r with
  | UploadResult.success data =>
    match data with
    | Val.vDict kvs =>
      ({ doc with ragflow_document_id := (lookupKV kvs "document_id").getD Val.vNone,
                  processing_status := "processing" }, true)
    | _ => (doc, false)
  | UploadResult.error => ({ doc with processing_status := "failed" }, false)

/-! ## Upload validation (main.py lines 152-212 and 351-442) -/

/-- An HTTPException as raised by the validators: status code and detail. -/
structure HTTPErr where
  status_code : Nat
  detail : String
deriving DecidableEq

/-- The request file metadata validate_pdf_file reads: filename (None when
missing), content type (None when absent) and the size attribute (None when
the framework could not determine it; for files parsed from a multipart
upload the framework sets it to the number of bytes received). -/
structure UploadFileMeta where
  filename : Option (List Char)
  content_type : Option String
  size : Option Nat

/-- Python str.strip over its default ASCII whitespace set (unicode spaces
are not modelled). -/
def isPySpace (c : Char) : Bool :=
  c = ' ' || c = '\t' || c = '\n' || c = '\x0d' || c = '\x0b' || c = '\x0c'

def pyStrip (s : List Char) : List Char :=
  ((s.dropWhile isPySpace).reverse.dropWhile isPySpace).reverse

/-- The character class of the filename rejection regex (main.py line 177). -/
def invalidFilenameChar (c : Char) : Bool :=
  c = '<' || c = '>' || c = ':' || c = '"' || c = '/' || c = '\\' ||
  c = '|' || c = '?' || c = '*' || c.toNat ≤ 0x1f

/-- pathlib suffix of a final path component: the part from the last dot,
unless that dot is the first or last character. -/
def pathSuffix (name : List Char) : List Char :=
  match name.reverse.findIdx? (fun c => c = '.') with
  | none => []
  | some j =>
    let i := name.length - 1 - j
    if 0 < i ∧ i < name.length - 1 then name.drop i else []

/-- settings.max_file_size default: 50MB. -/
def MAX_FILE_SIZE : Nat := 50 * 1024 * 1024

/-- validate_pdf_file (main.py lines 152-212): the first failing check
raises an HTTPException with status 400; none means the file passed. -/
def validate_pdf_file (file : UploadFileMeta) : Option HTTPErr :=
  match file.filename with
  | none => some { status_code := 400, detail := "No file provided or filename is missing." }
  | some fn0 =>
    if fn0.isEmpty then
      some { status_code := 400, detail := "No file provided or filename is missing." }
    else
      let filename := pyStrip fn0
      if filename.isEmpty then
        some { status_code := 400, detail := "Filename cannot be empty." }
      else if 255 < filename.length then
        some { status_code := 400,
               detail := "Filename is too long. Maximum length is 255 characters." }
      else if filename.any invalidFilenameChar then
        some { status_code := 400,
               detail := "Filename contains invalid characters. Please remove special characters." }
      else if (pathSuffix filename).map Char.toLower ≠ ".pdf".data then
        some { status_code := 400,
               detail := "Invalid file format " ++ String.mk ((pathSuffix filename).map Char.toLower) ++
                 ". Only PDF files are allowed." }
      else
        match file.content_type with
        | some ct =>
          if ct ≠ "" && ct ≠ "application/pdf" then
            some { status_code := 400,
                   detail := "Invalid content type " ++ ct ++ ". Expected application/pdf." }
          else checkSize file.size
        | none => checkSize file.size
where
  /-- The size checks at main.py lines 199-212: skipped entirely when the
  size attribute is absent. -/
  checkSize : Option Nat → Option HTTPErr
  | none => none
  | some sz =>
    if MAX_FILE_SIZE < sz then
      some { status_code := 400,
             detail := "File too large (" ++ toString (sz / (1024 * 1024)) ++
               "MB). Maximum size is " ++ toString (MAX_FILE_SIZE / (1024 * 1024)) ++ "MB." }
    else if sz < 1024 then
      some { status_code := 400, detail := "File appears to be empty or corrupted." }
    else none

/-- upload_document (main.py lines 351-442) up to the point a response is
returned: validation first (raising before any record exists), then the
full-content size re-check, then creation of the pending record and the
registration transition.  The error side carries the HTTPException; the ok
side carries the final record and whether polling was scheduled. -/
def upload_document (file : UploadFileMeta) (contentLen : Nat) (reg : UploadResult) :
    Except HTTPErr (Doc × Bool) :=
  match validate_pdf_file file with
  | some e => Except.error e
  | none =>
    if MAX_FILE_SIZE < contentLen then
      Except.error ⟨400, "File too large. Maximum size is " ++
        toString (MAX_FILE_SIZE / (1024 * 1024)) ++ "MB."⟩
    else
      Except.ok (uploadAfterSave
        { processing_status := "pending", ragflow_document_id := Val.vNone,
          page_count := Val.vNone, doc_metadata := Val.vNone } reg)

/-! ## Helper lemmas -/

theorem mapOpt_isEmpty {f : α → Option β} {xs : List α} {ys : List β}
    (h : mapOpt f xs = some ys) : ys.isEmpty = xs.isEmpty := by
  cases xs with
  | nil => simp [mapOpt] at h; simp [h]
  | cons a rest =>
    simp only [mapOpt, Option.bind_eq_bind, Option.bind_eq_some] at h
    obtain ⟨b, -, bs, -, hys⟩ := h
    injection hys with h2
    subst h2
    simp

theorem mapOpt_get? {f : α → Option β} {xs : List α} {ys : List β}
    (h : mapOpt f xs = some ys) :
    ∀ (i : Nat) (x : α), xs[i]? = some x → ∃ y, f x = some y ∧ ys[i]? = some y := by
  induction xs generalizing ys with
  | nil => intro i x hx; simp at hx
  | cons a rest ih =>
    simp only [mapOpt, Option.bind_eq_bind, Option.bind_eq_some] at h
    obtain ⟨b, hb, bs, hbs, hys⟩ := h
    injection hys with h2
    subst h2
    intro i x hx
    cases i with
    | zero =>
      simp at hx
      exact ⟨b, hx ▸ hb, by simp⟩
    | succ i =>
      simp at hx
      obtain ⟨y, hy, hget⟩ := ih hbs i x hx
      exact ⟨y, hy, by simpa using hget⟩

/-- C2: for every raw query response, citation extraction consumes exactly
one of the three shapes sources, chunks, references, in that fixed priority
order: the pre-deduplication list is the sources result when non-empty,
else the chunks result when non-empty, else the references result; the
shapes not chosen do not influence the output even when present. -/
theorem citation_shape_priority (ss cs rs : List Val) (l m r : List Citation)
    (hs : mapOpt mkSourceCitation ss = some l)
    (hc : mapOpt mkChunkCitation cs = some m)
    (hr : mapOpt mkRefCitation rs = some r) :
    rawCitations (mkRawResponse ss cs rs) =
      some (if l.isEmpty then (if m.isEmpty then r else m) else l) := by
  have hlm := mapOpt_isEmpty hs
  have hmm := mapOpt_isEmpty hc
  have hrm := mapOpt_isEmpty hr
  simp only [rawCitations, mkRawResponse, dictGet, lookupKV, pyIter, pyTruthy,
    Option.getD_some, Option.bind_eq_bind, Option.some_bind, reduceIte,
    Option.bind_some, hs]
  by_cases hl : l.isEmpty
  · by_cases hcs : cs.isEmpty
    · have hm : m.isEmpty := hmm ▸ hcs
      by_cases hrs : rs.isEmpty
      · have hrr : r.isEmpty := hrm ▸ hrs
        simp_all [List.isEmpty_iff]
      · simp_all [List.isEmpty_iff]
    · have hm : ¬m.isEmpty := by simp [hmm, hcs]
      simp_all [List.isEmpty_iff]
  · simp_all [List.isEmpty_iff]

theorem citation_shape_priority_witness :
    rawCitations (mkRawResponse [Val.vDict [("document_id", Val.vStr "s".data)]]
        [Val.vDict [("doc_id", Val.vStr "c".data)]]
        [Val.vDict [("document_id", Val.vStr "r".data)]]) =
      some [{ document_id := "s".data, page_number := 1, text_excerpt := [] }] := by
  have h := citation_shape_priority
    [Val.vDict [("document_id", Val.vStr "s".data)]]
    [Val.vDict [("doc_id", Val.vStr "c".data)]]
    [Val.vDict [("document_id", Val.vStr "r".data)]]
    [{ document_id := "s".data, page_number := 1, text_excerpt := [] }]
    [{ document_id := "c".data, page_number := 1, text_excerpt := [] }]
    [{ document_id := "r".data, page_number := 1, text_excerpt := [] }]
    (by decide) (by decide) (by decide)
  simpa using h

theorem mem_dedupAux {c : Citation} :
    ∀ {cs : List Citation} {seen : List (List Char × Int)},
      c ∈ dedupAux cs seen → c ∈ cs ∧ keyOf c ∉ seen := by
  intro cs
  induction cs with
  | nil => intro seen h; simp [dedupAux] at h
  | cons a rest ih =>
    intro seen h
    simp only [dedupAux] at h
    by_cases hk : keyOf a ∈ seen
    · simp only [if_pos hk] at h
      obtain ⟨hmem, hns⟩ := ih h
      exact ⟨List.mem_cons_of_mem _ hmem, hns⟩
    · simp only [if_neg hk] at h
      rcases List.mem_cons.mp h with rfl | h
      · exact ⟨List.mem_cons_self _ _, hk⟩
      · obtain ⟨hmem, hns⟩ := ih h
        refine ⟨List.mem_cons_of_mem _ hmem, fun hin => hns ?_⟩
        exact List.mem_cons_of_mem _ hin

theorem pairwise_dedupAux :
    ∀ (cs : List Citation) (seen : List (List Char × Int)),
      List.Pairwise (fun a b => keyOf a ≠ keyOf b) (dedupAux cs seen) := by
  intro cs
  induction cs with
  | nil => intro seen; simp [dedupAux]
  | cons a rest ih =>
    intro seen
    simp only [dedupAux]
    by_cases hk : keyOf a ∈ seen
    · simpa [if_pos hk] using ih seen
    · rw [if_neg hk]
      refine List.pairwise_cons.mpr ⟨fun b hb => ?_, ih _⟩
      have := (mem_dedupAux hb).2
      intro hEq
      exact this (hEq ▸ List.mem_cons_self _ _)

theorem find?_dedupAux {c : Citation} :
    ∀ {cs : List Citation} {seen : List (List Char × Int)},
      c ∈ dedupAux cs seen →
      cs.find? (fun x => decide (keyOf x = keyOf c)) = some c := by
  intro cs
  induction cs with
  | nil => intro seen h; simp [dedupAux] at h
  | cons a rest ih =>
    intro seen h
    simp only [dedupAux] at h
    by_cases hk : keyOf a ∈ seen
    · rw [if_pos hk] at h
      have hne : keyOf a ≠ keyOf c := by
        intro hEq
        exact (mem_dedupAux h).2 (hEq ▸ hk)
      rw [List.find?_cons_of_neg _ (by simpa using hne)]
      exact ih h
    · rw [if_neg hk] at h
      rcases List.mem_cons.mp h with rfl | h
      · exact List.find?_cons_of_pos _ (by simp)
      · have hne : keyOf a ≠ keyOf c := by
          intro hEq
          exact (mem_dedupAux h).2 (hEq ▸ List.mem_cons_self _ _)
        rw [List.find?_cons_of_neg _ (by simpa using hne)]
        exact ih h

/-- C4: the citation list returned by extraction has at most 5 entries, no
two entries share the same (document id, page number) key, and every
returned citation is the first citation with its key in the
pre-deduplication sequence. -/
theorem citation_dedup_cap (resp : Val) (cs : List Citation)
    (h : rawCitations resp = some cs) :
    (extract_citations resp).length ≤ 5 ∧
    List.Pairwise (fun a b => keyOf a ≠ keyOf b) (extract_citations resp) ∧
    ∀ c ∈ extract_citations resp,
      cs.find? (fun x => decide (keyOf x = keyOf c)) = some c := by
  have hx : extract_citations resp = (dedupCitations cs).take 5 := by
    simp [extract_citations, h]
  refine ⟨?_, ?_, ?_⟩
  · rw [hx]
    simp [List.length_take]
  · rw [hx]
    exact (pairwise_dedupAux cs []).sublist (List.take_sublist _ _)
  · intro c hc
    rw [hx] at hc
    exact find?_dedupAux (List.mem_of_mem_take hc)

theorem citation_dedup_cap_witness :
    (extract_citations (Val.vDict [("sources", Val.vList
      [Val.vDict [("page_number", Val.vInt 1)], Val.vDict [("page_number", Val.vInt 1)],
       Val.vDict [("page_number", Val.vInt 2)], Val.vDict [("page_number", Val.vInt 3)],
       Val.vDict [("page_number", Val.vInt 4)], Val.vDict [("page_number", Val.vInt 5)],
       Val.vDict [("page_number", Val.vInt 6)]])])).length ≤ 5 ∧
    List.Pairwise (fun a b => keyOf a ≠ keyOf b)
      (extract_citations (Val.vDict [("sources", Val.vList
      [Val.vDict [("page_number", Val.vInt 1)], Val.vDict [("page_number", Val.vInt 1)],
       Val.vDict [("page_number", Val.vInt 2)], Val.vDict [("page_number", Val.vInt 3)],
       Val.vDict [("page_number", Val.vInt 4)], Val.vDict [("page_number", Val.vInt 5)],
       Val.vDict [("page_number", Val.vInt 6)]])])) ∧
    ∀ c ∈ extract_citations (Val.vDict [("sources", Val.vList
      [Val.vDict [("page_number", Val.vInt 1)], Val.vDict [("page_number", Val.vInt 1)],
       Val.vDict [("page_number", Val.vInt 2)], Val.vDict [("page_number", Val.vInt 3)],
       Val.vDict [("page_number", Val.vInt 4)], Val.vDict [("page_number", Val.vInt 5)],
       Val.vDict [("page_number", Val.vInt 6)]])]),
      ([{ document_id := [], page_number := 1, text_excerpt := [] },
        { document_id := [], page_number := 1, text_excerpt := [] },
        { document_id := [], page_number := 2, text_excerpt := [] },
        { document_id := [], page_number := 3, text_excerpt := [] },
        { document_id := [], page_number := 4, text_excerpt := [] },
        { document_id := [], page_number := 5, text_excerpt := [] },
        { document_id := [], page_number := 6, text_excerpt := [] }] :
        List Citation).find? (fun x => decide (keyOf x = keyOf c)) = some c :=
  citation_dedup_cap _ _ (by decide)

set_option maxRecDepth 4000 in
/-- C3 counterexample: a citation coming from the references shape keeps its
excerpt verbatim; with a 250-character source text the stored excerpt has
length 250 > 203 and carries no ellipsis marker, against the claim that this
holds regardless of the input shape. -/
theorem citation_refs_excerpt_counterexample :
    (extract_citations (Val.vDict [("references", Val.vList
        [Val.vDict [("document_id", Val.vStr "d1".data), ("page", Val.vInt 2),
          ("excerpt", Val.vStr (List.replicate 250 'b')),
          ("relevance", Val.vInt 1)]])])).map Citation.text_excerpt =
      [List.replicate 250 'b'] ∧
    ¬(List.replicate 250 'b').length ≤ 203 := by
  constructor
  · decide
  · decide

/-- C3 amended: citations produced from the sources or chunks shape truncate
a source text longer than 200 characters to exactly 203 characters ending in
the three-dot ellipsis marker and keep shorter texts verbatim; citations
produced from the references shape always store the source excerpt verbatim,
whatever its length. -/
theorem citation_excerpt_truncation (sv cv rv : Val) (sc cc rc : Citation)
    (st ct rt : List Char)
    (hs1 : dictGet sv "text" (Val.vStr []) = some (Val.vStr st))
    (hs2 : mkSourceCitation sv = some sc)
    (hc1 : dictGet cv "content" (Val.vStr []) = some (Val.vStr ct))
    (hc2 : mkChunkCitation cv = some cc)
    (hr1 : dictGet rv "excerpt" (Val.vStr []) = some (Val.vStr rt))
    (hr2 : mkRefCitation rv = some rc) :
    (200 < st.length →
      sc.text_excerpt.length = 203 ∧ ∃ p, sc.text_excerpt = p ++ "...".data) ∧
    (st.length ≤ 200 → sc.text_excerpt = st) ∧
    (200 < ct.length →
      cc.text_excerpt.length = 203 ∧ ∃ p, cc.text_excerpt = p ++ "...".data) ∧
    (ct.length ≤ 200 → cc.text_excerpt = ct) ∧
    rc.text_excerpt = rt := by
  have hsx : sc.text_excerpt = if 200 < st.length then st.take 200 ++ "...".data else st := by
    simp only [mkSourceCitation, Option.bind_eq_bind, Option.bind_eq_some] at hs2
    obtain ⟨dv, -, pv, -, tv, htv, rest⟩ := hs2
    rw [hs1] at htv
    injection htv with htv
    subst htv
    obtain ⟨spv, -, epv, -, scv, -, di, -, pn, -, te, hte, sp, -, ep, -, cf, -, hcit⟩ := rest
    simp only [pyTextExcerpt, Option.some.injEq] at hte
    injection hcit with hcit
    rw [← hcit]
    exact hte.symm
  have hcx : cc.text_excerpt = if 200 < ct.length then ct.take 200 ++ "...".data else ct := by
    simp only [mkChunkCitation, Option.bind_eq_bind, Option.bind_eq_some] at hc2
    obtain ⟨dv, -, pv, -, cv2, hcv2, rest⟩ := hc2
    rw [hc1] at hcv2
    injection hcv2 with hcv2
    subst hcv2
    obtain ⟨scv, -, di, -, pn, -, te, hte, cf, -, hcit⟩ := rest
    simp only [pyTextExcerpt, Option.some.injEq] at hte
    injection hcit with hcit
    rw [← hcit]
    exact hte.symm
  have hrx : rc.text_excerpt = rt := by
    simp only [mkRefCitation, Option.bind_eq_bind, Option.bind_eq_some] at hr2
    obtain ⟨dv, -, pv, -, ev, hev, rest⟩ := hr2
    rw [hr1] at hev
    injection hev with hev
    subst hev
    obtain ⟨rlv, -, di, -, pn, -, te, hte, cf, -, hcit⟩ := rest
    simp only [coerceStr, Option.some.injEq] at hte
    injection hcit with hcit
    rw [← hcit]
    exact hte.symm
  refine ⟨?_, ?_, ?_, ?_, hrx⟩
  · intro hlong
    rw [hsx, if_pos hlong]
    refine ⟨?_, st.take 200, rfl⟩
    simp [List.length_take]
    omega
  · intro hshort
    rw [hsx, if_neg (by omega)]
  · intro hlong
    rw [hcx, if_pos hlong]
    refine ⟨?_, ct.take 200, rfl⟩
    simp [List.length_take]
    omega
  · intro hshort
    rw [hcx, if_neg (by omega)]

set_option maxRecDepth 4000 in
theorem citation_excerpt_truncation_witness :
    ((List.replicate 201 'a').length > 200 →
      ((List.replicate 201 'a').take 200 ++ "...".data).length = 203) ∧
    (mkSourceCitation (Val.vDict [("text", Val.vStr (List.replicate 201 'a'))])).map
      Citation.text_excerpt =
      some ((List.replicate 201 'a').take 200 ++ "...".data) ∧
    (mkChunkCitation (Val.vDict [("content", Val.vStr "hi".data)])).map
      Citation.text_excerpt = some "hi".data ∧
    (mkRefCitation (Val.vDict [("excerpt", Val.vStr (List.replicate 250 'b'))])).map
      Citation.text_excerpt = some (List.replicate 250 'b') := by
  have h := citation_excerpt_truncation
    (Val.vDict [("text", Val.vStr (List.replicate 201 'a'))])
    (Val.vDict [("content", Val.vStr "hi".data)])
    (Val.vDict [("excerpt", Val.vStr (List.replicate 250 'b'))])
    { document_id := [], page_number := 1,
      text_excerpt := (List.replicate 201 'a').take 200 ++ "...".data }
    { document_id := [], page_number := 1, text_excerpt := "hi".data }
    { document_id := [], page_number := 1, text_excerpt := List.replicate 250 'b' }
    (List.replicate 201 'a') "hi".data (List.replicate 250 'b')
    (by rfl) (by decide) (by rfl) (by decide) (by rfl) (by decide)
  refine ⟨fun hgt => (h.1 (by decide)).1, by decide, by decide, by decide⟩

/-- C6 counterexample: the raw response below is a mapping, and its sources
shape holds a well-formed entry next to an entry whose page_number is
present but malformed (None).  The malformed field is not replaced by the
default 1: the internal exception path discards everything and the
extraction returns the empty list, even though the same response without the
malformed entry yields a citation. -/
theorem citation_malformed_counterexample :
    isMapping (Val.vDict [("sources", Val.vList
      [Val.vDict [("document_id", Val.vStr "d1".data), ("page_number", Val.vInt 3),
         ("text", Val.vStr "x".data)],
       Val.vDict [("page_number", Val.vNone)]])]) = true ∧
    extract_citations (Val.vDict [("sources", Val.vList
      [Val.vDict [("document_id", Val.vStr "d1".data), ("page_number", Val.vInt 3),
         ("text", Val.vStr "x".data)],
       Val.vDict [("page_number", Val.vNone)]])]) = [] ∧
    extract_citations (Val.vDict [("sources", Val.vList
      [Val.vDict [("document_id", Val.vStr "d1".data), ("page_number", Val.vInt 3),
         ("text", Val.vStr "x".data)]])]) =
      [{ document_id := "d1".data, page_number := 3, text_excerpt := "x".data }] := by
  refine ⟨rfl, by decide, by decide⟩

/-- C6 amended: citation extraction is a total function that never
propagates an exception.  A missing page-number field defaults to 1 and a
missing confidence/score field defaults to 0.0 in every shape; the
extraction returns the empty list when the raw response is not a mapping,
but also when no shape yields a citation or when a present-but-malformed
field makes the internal processing raise (the caught exception discards
all citations). -/
theorem citation_missing_field_defaults
    (kv1 kv2 kv3 : List (String × Val)) (c1 c2 c3 : Citation)
    (h1p : lookupKV kv1 "page_number" = none) (h1s : lookupKV kv1 "score" = none)
    (h2p : lookupKV kv2 "page_num" = none) (h2s : lookupKV kv2 "similarity_score" = none)
    (h3p : lookupKV kv3 "page" = none) (h3s : lookupKV kv3 "relevance" = none)
    (hc1 : mkSourceCitation (Val.vDict kv1) = some c1)
    (hc2 : mkChunkCitation (Val.vDict kv2) = some c2)
    (hc3 : mkRefCitation (Val.vDict kv3) = some c3) :
    (c1.page_number = 1 ∧ c1.confidence = 0) ∧
    (c2.page_number = 1 ∧ c2.confidence = 0) ∧
    (c3.page_number = 1 ∧ c3.confidence = 0) ∧
    ∀ v : Val, isMapping v = false → extract_citations v = [] := by
  refine ⟨?_, ?_, ?_, ?_⟩
  · simp only [mkSourceCitation, dictGet, h1p, h1s, Option.getD_none, Option.getD_some,
      Option.bind_eq_bind, Option.some_bind, coerceInt, coerceFloat,
      Option.bind_eq_some] at hc1
    obtain ⟨di, -, te, -, sp, -, ep, -, hcit⟩ := hc1
    injection hcit with hcit
    simp [← hcit]
  · simp only [mkChunkCitation, dictGet, h2p, h2s, Option.getD_none, Option.getD_some,
      Option.bind_eq_bind, Option.some_bind, coerceInt, coerceFloat,
      Option.bind_eq_some] at hc2
    obtain ⟨di, -, te, -, hcit⟩ := hc2
    injection hcit with hcit
    simp [← hcit]
  · simp only [mkRefCitation, dictGet, h3p, h3s, Option.getD_none, Option.getD_some,
      Option.bind_eq_bind, Option.some_bind, coerceInt, coerceFloat,
      Option.bind_eq_some] at hc3
    obtain ⟨di, -, te, -, hcit⟩ := hc3
    injection hcit with hcit
    simp [← hcit]
  · intro v hv
    cases v <;> simp_all [extract_citations, rawCitations, dictGet, isMapping]

theorem citation_missing_field_defaults_witness :
    (Citation.page_number { document_id := "a".data, page_number := 1, text_excerpt := [] } = 1 ∧
     Citation.confidence { document_id := "a".data, page_number := 1, text_excerpt := [] } = 0) ∧
    (Citation.page_number { document_id := "b".data, page_number := 1, text_excerpt := [] } = 1 ∧
     Citation.confidence { document_id := "b".data, page_number := 1, text_excerpt := [] } = 0) ∧
    (Citation.page_number { document_id := "c".data, page_number := 1, text_excerpt := [] } = 1 ∧
     Citation.confidence { document_id := "c".data, page_number := 1, text_excerpt := [] } = 0) ∧
    ∀ v : Val, isMapping v = false → extract_citations v = [] :=
  citation_missing_field_defaults
    [("document_id", Val.vStr "a".data)] [("doc_id", Val.vStr "b".data)]
    [("document_id", Val.vStr "c".data)]
    { document_id := "a".data, page_number := 1, text_excerpt := [] }
    { document_id := "b".data, page_number := 1, text_excerpt := [] }
    { document_id := "c".data, page_number := 1, text_excerpt := [] }
    rfl rfl rfl rfl rfl rfl (by decide) (by decide) (by decide)

/-- C10: a citation entry of any consumed shape lacking its document id
field is assigned the empty string as document id, and deduplication then
keys such citations on the page number alone: any two distinct citations in
the output that both carry the empty document id have distinct page numbers,
even if they originated from distinct underlying documents. -/
theorem citation_missing_doc_id_collapse
    (kv1 kv2 kv3 : List (String × Val)) (c1 c2 c3 : Citation)
    (h1 : lookupKV kv1 "document_id" = none)
    (h2 : lookupKV kv2 "doc_id" = none)
    (h3 : lookupKV kv3 "document_id" = none)
    (hc1 : mkSourceCitation (Val.vDict kv1) = some c1)
    (hc2 : mkChunkCitation (Val.vDict kv2) = some c2)
    (hc3 : mkRefCitation (Val.vDict kv3) = some c3) :
    c1.document_id = [] ∧ c2.document_id = [] ∧ c3.document_id = [] ∧
    ∀ resp : Val, ∀ a ∈ extract_citations resp, ∀ b ∈ extract_citations resp,
      a.document_id = [] → b.document_id = [] → a ≠ b →
      a.page_number ≠ b.page_number := by
  refine ⟨?_, ?_, ?_, ?_⟩
  · simp only [mkSourceCitation, dictGet, h1, Option.getD_none, Option.getD_some,
      Option.bind_eq_bind, Option.some_bind, coerceStr, Option.bind_eq_some] at hc1
    obtain ⟨pn, -, te, -, sp, -, ep, -, cf, -, hcit⟩ := hc1
    injection hcit with hcit
    simp [← hcit]
  · simp only [mkChunkCitation, dictGet, h2, Option.getD_none, Option.getD_some,
      Option.bind_eq_bind, Option.some_bind, coerceStr, Option.bind_eq_some] at hc2
    obtain ⟨pn, -, te, -, cf, -, hcit⟩ := hc2
    injection hcit with hcit
    simp [← hcit]
  · simp only [mkRefCitation, dictGet, h3, Option.getD_none, Option.getD_some,
      Option.bind_eq_bind, Option.some_bind, coerceStr, Option.bind_eq_some] at hc3
    obtain ⟨pn, -, te, -, cf, -, hcit⟩ := hc3
    injection hcit with hcit
    simp [← hcit]
  · intro resp a ha b hb hda hdb hne
    have hpw : List.Pairwise (fun x y => keyOf x ≠ keyOf y) (extract_citations resp) := by
      cases hr : rawCitations resp with
      | none => simp [extract_citations, hr]
      | some cs =>
        have hx : extract_citations resp = (dedupCitations cs).take 5 := by
          simp [extract_citations, hr]
        rw [hx]
        exact (pairwise_dedupAux cs []).sublist (List.take_sublist _ _)
    have hkey : keyOf a ≠ keyOf b :=
      hpw.forall (fun x y hxy => (hxy ∘ Eq.symm)) ha hb hne
    intro hpage
    exact hkey (by simp [keyOf, hda, hdb, hpage])

theorem citation_missing_doc_id_collapse_witness :
    Citation.document_id { document_id := ([] : List Char), page_number := 4, text_excerpt := [] } = [] ∧
    Citation.document_id { document_id := ([] : List Char), page_number := 5, text_excerpt := [] } = [] ∧
    Citation.document_id { document_id := ([] : List Char), page_number := 6, text_excerpt := [] } = [] ∧
    ∀ resp : Val, ∀ a ∈ extract_citations resp, ∀ b ∈ extract_citations resp,
      a.document_id = [] → b.document_id = [] → a ≠ b →
      a.page_number ≠ b.page_number :=
  citation_missing_doc_id_collapse
    [("page_number", Val.vInt 4)] [("page_num", Val.vInt 5)] [("page", Val.vInt 6)]
    { document_id := [], page_number := 4, text_excerpt := [] }
    { document_id := [], page_number := 5, text_excerpt := [] }
    { document_id := [], page_number := 6, text_excerpt := [] }
    rfl rfl rfl (by decide) (by decide) (by decide)

/-- C5 counterexample: with an empty persisted history, a send_message turn
does not send the question unmodified and does attach a context field: the
just-saved user message is always appended to the context before the query,
so the outgoing question is wrapped in the template and the context block
holds one Human line. -/
theorem context_empty_history_counterexample :
    (send_message_payload [] "What is RAG?").question ≠ "What is RAG?" ∧
    (send_message_payload [] "What is RAG?").conversation_context ≠ none := by
  constructor
  · decide
  · decide

/-- C5 amended: the context block sent with a send_message query is the
newline join of at most 10 role-labelled lines (Human for user, Assistant
otherwise), taken oldest-first as a suffix of the last 10 persisted messages
followed by the just-persisted user question.  query_documents itself sends
the question unmodified with no context field when given no or an empty
context list, but send_message never passes an empty list: with an empty
prior history the context is the single line Human: question and the
question is wrapped in the fixed template rather than sent unmodified. -/
theorem context_window_bounded (history : List Msg) (q : String) :
    (send_message_payload history q).conversation_context =
      some (joinWithNL ((takeLast 10 (send_message_context history q)).map renderMsg)) ∧
    (takeLast 10 (send_message_context history q)).length ≤ 10 ∧
    (∃ pre, send_message_context history q =
      pre ++ takeLast 10 (send_message_context history q)) ∧
    send_message_context history q =
      takeLast 10 history ++ [{ role := "user", content := q }] ∧
    query_documents q none = { question := q, conversation_context := none } ∧
    query_documents q (some []) = { question := q, conversation_context := none } ∧
    send_message_payload [] q =
      { question := "Given our previous conversation:\nHuman: " ++ q ++
          "\n\nNew question: " ++ q,
        conversation_context := some ("Human: " ++ q) } := by
  have hmsgs : send_message_context history q =
      takeLast 10 history ++ [{ role := "user", content := q }] := rfl
  have hne : (send_message_context history q).isEmpty = false := by
    rw [hmsgs]
    simp
  have hlen : 0 < (send_message_context history q).length := by
    rw [hmsgs]
    simp
  have hrecne : (takeLast 10 (send_message_context history q)).isEmpty = false := by
    simp only [takeLast, List.isEmpty_eq_false, ne_eq, ← List.length_pos,
      List.length_drop]
    omega
  refine ⟨?_, ?_, ?_, hmsgs, rfl, rfl, ?_⟩
  · simp only [send_message_payload, query_documents, hne, Bool.false_eq_true,
      if_false, hrecne]
    have : ((takeLast 10 (send_message_context history q)).map renderMsg).isEmpty = false := by
      simp only [List.isEmpty_eq_false, ne_eq, List.map_eq_nil_iff]
      simp only [List.isEmpty_eq_false, ne_eq] at hrecne
      exact hrecne
    simp [this]
  · simp only [takeLast, List.length_drop]
    omega
  · exact ⟨(send_message_context history q).take
      ((send_message_context history q).length - 10),
      (List.take_append_drop _ _).symm⟩
  · have h1 : send_message_payload [] q =
        { question := ("Given our previous conversation:\n" ++ (("Human" ++ ": ") ++ q)) ++
            "\n\nNew question: " ++ q,
          conversation_context := some (("Human" ++ ": ") ++ q) } := rfl
    rw [h1, ← String.append_assoc]
    exact rfl

/-- Terminal-status document used by concrete witnesses. -/
def docCompleted : Doc where
  processing_status := "completed"
  ragflow_document_id := Val.vStr "r".data
  page_count := Val.vNone
  doc_metadata := Val.vNone

/-- Processing-status document used by concrete witnesses. -/
def docProcessing : Doc where
  processing_status := "processing"
  ragflow_document_id := Val.vStr "r".data
  page_count := Val.vNone
  doc_metadata := Val.vNone

/-- Pending-status document used by concrete witnesses. -/
def docPending : Doc where
  processing_status := "pending"
  ragflow_document_id := Val.vNone
  page_count := Val.vNone
  doc_metadata := Val.vNone

/-- C1: once a document is in a terminal status (completed or failed), no
iteration of the background poll loop, no on-demand status check and no
batch reconciliation pass changes its processing_status (or any other
field): the poll loop breaks immediately without touching the record, the
endpoint reconciles only records still in processing, and the batch pass
filters on the processing status. -/
theorem doc_terminal_status_monotonic (doc : Doc) (resp : Nat → RagResult)
    (ext : RagResult) (docs : List Doc) (respf : Doc → RagResult)
    (calls budget i : Nat)
    (h : doc.processing_status = "completed" ∨ doc.processing_status = "failed")
    (hi : docs[i]? = some doc) :
    poll_document_status resp (some doc) calls budget = (some doc, calls, []) ∧
    get_document_status doc ext = doc ∧
    (poll_processing_documents docs respf)[i]? = some doc := by
  have hns : doc.processing_status ≠ "processing" := by
    rcases h with h | h <;> simp [h]
  refine ⟨?_, ?_, ?_⟩
  · cases budget with
    | zero => rfl
    | succ b => simp [poll_document_status, hns]
  · simp [get_document_status, hns]
  · have hstep : pollAllStep doc (respf doc) = some doc := by
      simp [pollAllStep, hns]
    cases hmap : mapOpt (fun d => pollAllStep d (respf d)) docs with
    | none => simpa [poll_processing_documents, hmap] using hi
    | some ds =>
      obtain ⟨y, hy, hget⟩ := mapOpt_get? hmap i doc hi
      rw [hstep] at hy
      injection hy with hy
      simp [poll_processing_documents, hmap, ← hy, hget]

theorem doc_terminal_status_monotonic_witness :
    poll_document_status (fun _ => RagResult.error) (some docCompleted) 0 60 =
      (some docCompleted, 0, []) ∧
    get_document_status docCompleted RagResult.error = docCompleted ∧
    (poll_processing_documents [docCompleted] (fun _ => RagResult.error))[0]? =
      some docCompleted :=
  doc_terminal_status_monotonic docCompleted _ _ _ _ 0 60 0 (Or.inl rfl) rfl

/-- A poll-loop response that is neither a terminal external status nor an
exception: the iteration consuming it continues the loop. -/
def nonTerminalResp (r : RagResult) : Bool :=
  match r with
  | RagResult.error => true
  | RagResult.exn => false
  | RagResult.success data =>
    match interpretStatusData data with
    | StatusOutcome.noChange => true
    | _ => false

theorem poll_calls_le (resp : Nat → RagResult) :
    ∀ (budget : Nat) (doc? : Option Doc) (calls : Nat),
      (poll_document_status resp doc? calls budget).2.1 ≤ calls + budget ∧
      ∀ t ∈ (poll_document_status resp doc? calls budget).2.2, t = 10 := by
  intro budget
  induction budget with
  | zero => intro doc? calls; simp [poll_document_status]
  | succ b ih =>
    intro doc? calls
    cases doc? with
    | none => simp [poll_document_status]
    | some doc =>
      by_cases hst : doc.processing_status ≠ "processing"
      · simp [poll_document_status, hst]
      · by_cases hid : pyTruthy doc.ragflow_document_id = true
        · cases hr : resp calls with
          | exn =>
            simp only [poll_document_status, if_neg hst, if_pos hid, hr]
            exact ⟨by omega, by simp⟩
          | error =>
            obtain ⟨ih1, ih2⟩ := ih (some doc) (calls + 1)
            simp only [poll_document_status, if_neg hst, if_pos hid, hr]
            refine ⟨by omega, ?_⟩
            intro t ht
            rcases List.mem_cons.mp ht with rfl | ht
            · rfl
            · exact ih2 t ht
          | success data =>
            cases ho : interpretStatusData data with
            | exn =>
              simp only [poll_document_status, if_neg hst, if_pos hid, hr, ho]
              exact ⟨by omega, by simp⟩
            | completed pc md =>
              simp only [poll_document_status, if_neg hst, if_pos hid, hr, ho]
              exact ⟨by omega, by simp⟩
            | failedStatus =>
              simp only [poll_document_status, if_neg hst, if_pos hid, hr, ho]
              exact ⟨by omega, by simp⟩
            | noChange =>
              obtain ⟨ih1, ih2⟩ := ih (some doc) (calls + 1)
              simp only [poll_document_status, if_neg hst, if_pos hid, hr, ho]
              refine ⟨by omega, ?_⟩
              intro t ht
              rcases List.mem_cons.mp ht with rfl | ht
              · rfl
              · exact ih2 t ht
        · obtain ⟨ih1, ih2⟩ := ih (some doc) calls
          simp only [poll_document_status, if_neg hst, if_neg hid]
          refine ⟨by omega, ?_⟩
          intro t ht
          rcases List.mem_cons.mp ht with rfl | ht
          · rfl
          · exact ih2 t ht

theorem poll_loop_nonterminal (resp : Nat → RagResult) (doc : Doc)
    (hst : doc.processing_status = "processing") :
    ∀ (budget calls : Nat),
      (∀ i, i < calls + budget → nonTerminalResp (resp i) = true) →
      poll_document_status resp (some doc) calls budget =
        (some doc,
         calls + (if pyTruthy doc.ragflow_document_id then budget else 0),
         List.replicate budget 10) := by
  intro budget
  induction budget with
  | zero => intro calls h; simp [poll_document_status]
  | succ b ih =>
    intro calls h
    have hst2 : ¬doc.processing_status ≠ "processing" := by simp [hst]
    by_cases hid : pyTruthy doc.ragflow_document_id = true
    · have hnt : nonTerminalResp (resp calls) = true := h calls (by omega)
      cases hr : resp calls with
      | exn => rw [hr] at hnt; simp [nonTerminalResp] at hnt
      | error =>
        have hrec := ih (calls + 1) (fun i hi => h i (by omega))
        simp only [poll_document_status, if_neg hst2, if_pos hid, hr, hrec]
        rw [List.replicate_succ]
        have harith : calls + 1 + b = calls + (b + 1) := by omega
        rw [harith]
      | success data =>
        rw [hr] at hnt
        cases ho : interpretStatusData data with
        | exn => simp [nonTerminalResp, ho] at hnt
        | completed pc md => simp [nonTerminalResp, ho] at hnt
        | failedStatus => simp [nonTerminalResp, ho] at hnt
        | noChange =>
          have hrec := ih (calls + 1) (fun i hi => h i (by omega))
          simp only [poll_document_status, if_neg hst2, if_pos hid, hr, ho, hrec]
          rw [List.replicate_succ]
          have harith : calls + 1 + b = calls + (b + 1) := by omega
          rw [harith]
    · have hrec := ih calls (fun i hi => h i (by omega))
      simp only [poll_document_status, if_neg hst2, if_neg hid, hrec]
      rw [List.replicate_succ]

/-- C7: a background poll run makes at most 60 external status attempts,
every interval slept between iterations is exactly 10 seconds, and when
every consumed external result is non-terminal (so the attempt budget is
exhausted) the loop ends with the document record unchanged, still in
processing: it is not auto-failed. -/
theorem poll_budget_exhaustion (doc : Doc) (resp : Nat → RagResult)
    (hst : doc.processing_status = "processing")
    (h : ∀ i, i < 60 → nonTerminalResp (resp i) = true) :
    (poll_document_status resp (some doc) 0 60).2.1 ≤ 60 ∧
    (∀ t ∈ (poll_document_status resp (some doc) 0 60).2.2, t = 10) ∧
    (poll_document_status resp (some doc) 0 60).1 = some doc ∧
    doc.processing_status = "processing" := by
  have hb := poll_calls_le resp 60 (some doc) 0
  have hrun := poll_loop_nonterminal resp doc hst 60 0 (fun i hi => h i (by omega))
  refine ⟨by simpa using hb.1, hb.2, ?_, hst⟩
  rw [hrun]

theorem poll_budget_exhaustion_witness :
    (poll_document_status (fun _ => RagResult.error) (some docProcessing) 0 60).2.1 ≤ 60 ∧
    (∀ t ∈ (poll_document_status (fun _ => RagResult.error)
      (some docProcessing) 0 60).2.2, t = 10) ∧
    (poll_document_status (fun _ => RagResult.error) (some docProcessing) 0 60).1 =
      some docProcessing ∧
    docProcessing.processing_status = "processing" :=
  poll_budget_exhaustion docProcessing _ rfl (fun _ _ => rfl)

/-- C8: starting from the freshly created pending record, the status moves
to processing only when the external registration call returned success; a
failed registration sets the status directly to failed and schedules no
background polling task, and the polling task is scheduled only on the
success path that also set the status to processing. -/
theorem upload_registration_gate (doc : Doc)
    (hpend : doc.processing_status = "pending") :
    (∀ (r : UploadResult) (d : Doc) (started : Bool),
      uploadAfterSave doc r = (d, started) → d.processing_status = "processing" →
      ∃ data, r = UploadResult.success data) ∧
    uploadAfterSave doc UploadResult.error =
      ({ doc with processing_status := "failed" }, false) ∧
    (∀ (r : UploadResult) (d : Doc),
      uploadAfterSave doc r = (d, true) →
      d.processing_status = "processing" ∧ ∃ data, r = UploadResult.success data) := by
  refine ⟨?_, rfl, ?_⟩
  · intro r d started hup hproc
    cases r with
    | success data => exact ⟨data, rfl⟩
    | error =>
      simp only [uploadAfterSave, Prod.mk.injEq] at hup
      rw [← hup.1] at hproc
      simp at hproc
  · intro r d hup
    cases r with
    | success data =>
      cases data with
      | vDict kvs =>
        simp only [uploadAfterSave, Prod.mk.injEq] at hup
        rw [← hup.1]
        exact ⟨rfl, Val.vDict kvs, rfl⟩
      | vNone => simp [uploadAfterSave] at hup
      | vInt n => simp [uploadAfterSave] at hup
      | vRat q => simp [uploadAfterSave] at hup
      | vStr s => simp [uploadAfterSave] at hup
      | vList xs => simp [uploadAfterSave] at hup
    | error => simp [uploadAfterSave] at hup

theorem upload_registration_gate_witness :
    (∀ (r : UploadResult) (d : Doc) (started : Bool),
      uploadAfterSave docPending r = (d, started) →
      d.processing_status = "processing" → ∃ data, r = UploadResult.success data) ∧
    uploadAfterSave docPending UploadResult.error =
      ({ docPending with processing_status := "failed" }, false) ∧
    (∀ (r : UploadResult) (d : Doc),
      uploadAfterSave docPending r = (d, true) →
      d.processing_status = "processing" ∧ ∃ data, r = UploadResult.success data) :=
  upload_registration_gate docPending rfl

/-- C9: an uploaded file whose size metadata reports fewer than 1024 bytes
(for a multipart upload the framework reports the received byte count) is
rejected by validation with a client-fault 400 error, and the upload
operation fails before any document record is created, so nothing reaches
the processing pipeline. -/
theorem upload_min_size_rejected (file : UploadFileMeta) (n : Nat)
    (reg : UploadResult) (hsz : file.size = some n) (hn : n < 1024) :
    (∃ e, validate_pdf_file file = some e ∧ e.status_code = 400) ∧
    (∃ e, upload_document file n reg = Except.error e ∧ e.status_code = 400) := by
  have hcs : validate_pdf_file.checkSize file.size =
      some { status_code := 400, detail := "File appears to be empty or corrupted." } := by
    rw [hsz]
    simp only [validate_pdf_file.checkSize]
    rw [if_neg (by simp only [MAX_FILE_SIZE]; omega), if_pos hn]
  have h1 : ∃ e, validate_pdf_file file = some e ∧ e.status_code = 400 := by
    cases hf : file.filename with
    | none =>
      exact ⟨{ status_code := 400, detail := "No file provided or filename is missing." },
        by simp [validate_pdf_file, hf], rfl⟩
    | some fn0 =>
      simp only [validate_pdf_file, hf]
      split_ifs with h1 h2 h3 h4 h5
      · exact ⟨_, rfl, rfl⟩
      · exact ⟨_, rfl, rfl⟩
      · exact ⟨_, rfl, rfl⟩
      · exact ⟨_, rfl, rfl⟩
      · exact ⟨_, rfl, rfl⟩
      · cases hct : file.content_type with
        | none => exact ⟨_, hcs, rfl⟩
        | some ct =>
          by_cases hcond : (ct ≠ "" && ct ≠ "application/pdf") = true
          · simp only [hcond, if_true]
            exact ⟨_, rfl, rfl⟩
          · simp only [hcond, if_false]
            exact ⟨_, hcs, rfl⟩
  obtain ⟨e, he, h400⟩ := h1
  exact ⟨⟨e, he, h400⟩, ⟨e, by simp [upload_document, he], h400⟩⟩

/-- The 500-byte upload of the specification scenario. -/
def smallPdfFile : UploadFileMeta where
  filename := some "test.pdf".data
  content_type := some "application/pdf"
  size := some 500

theorem upload_min_size_rejected_witness :
    (∃ e, validate_pdf_file smallPdfFile = some e ∧ e.status_code = 400) ∧
    (∃ e, upload_document smallPdfFile 500 UploadResult.error = Except.error e ∧
      e.status_code = 400) :=
  upload_min_size_rejected smallPdfFile 500 UploadResult.error rfl (by omega)

end Papyrus
